import Mathlib

/-!
Shallow embedding of `mini_agent/tools/mcp_loader.py` (the MCP tool bridge):
the `MCPTool` adapter, the `MCPServerConnection` lifecycle, the env
resolution performed by `load_mcp_tools_async`, and
`cleanup_mcp_connections`.  External effects (the MCP protocol library, the
child process, the ambient OS environment) are modelled as explicit oracle
arguments: each call into the library is represented by the outcome it can
produce (a normal return or a raised exception), and the Python code is
translated branch by branch into total Lean functions over those outcomes.
-/

namespace MCPLoader

/-- Python exceptions distinguished by the loader's `except` clauses:
`asyncio.CancelledError` (a `BaseException` in Python ≥3.8), `RuntimeError`
(matched by message in `disconnect`), and every other `Exception`. -/
inductive PyErr where
  | cancelledError
  | runtimeError (msg : String)
  | otherError (msg : String)
deriving Repr, DecidableEq

/-- Whether the first character list is a prefix of the second. -/
def charsPrefix : List Char → List Char → Bool
  | [], _ => true
  | _ :: _, [] => false
  | a :: as, b :: bs => a == b && charsPrefix as bs

/-- Whether the first character list occurs contiguously inside the second. -/
def charsInfix (needle : List Char) : List Char → Bool
  | [] => charsPrefix needle []
  | b :: bs => charsPrefix needle (b :: bs) || charsInfix needle bs

/-- Python's `needle in hay` substring test on strings. -/
def strContains (hay needle : String) : Bool :=
  charsInfix needle.toList hay.toList

/-- Python's `s.startswith(p)` test on strings. -/
def strStartsWith (s p : String) : Bool :=
  charsPrefix p.toList s.toList

/-- Modelled from the spec: `ToolResult` lives in `mini_agent/tools/base.py`,
which is not among the sources; §4.3's `InvocationResult = { ok: bool,
content: string, errorMessage: optional string }` together with the keyword
arguments `success=`, `content=`, `error=` used in `mcp_loader.py` fixes the
record. -/
structure ToolResult where
  success : Bool
  content : String
  error : Option String
deriving Repr, DecidableEq

/-- One content fragment of an MCP tool response: either an item carrying a
`text` attribute, or any other item, represented by its generic `str(item)`
rendering (the spec's tagged variant `Text(string) | Other(string)`). -/
inductive ContentItem where
  | text (s : String)
  | other (render : String)
deriving Repr, DecidableEq

/-- How `MCPTool.execute` turns one fragment into a string:
`item.text` when the attribute exists, else `str(item)`. -/
def renderItem : ContentItem → String
  | .text s => s
  | .other r => r

/-- Outcome of `await self._session.call_tool(...)`: either an exception
with message `msg`, or a response with its content fragments and its
`isError` attribute (`none` when the attribute is absent, in which case the
code defaults it to `False`). -/
inductive CallOutcome where
  | raise (msg : String)
  | respond (content : List ContentItem) (isError : Option Bool)
deriving Repr, DecidableEq

/-- `MCPTool.execute` (mcp_loader.py lines 63-90), as a function of the
session call's outcome. -/
def MCPTool.execute : CallOutcome → ToolResult
  | .raise msg =>
      { success := false
        content := ""
        error := some ("MCP tool execution failed: " ++ msg) }
  | .respond items isError =>
      let contentStr := String.intercalate "\n" (items.map renderItem)
      let is_error := isError.getD false
      { success := !is_error
        content := contentStr
        error := if !is_error then none else some "Tool returned error" }

/-- One tool descriptor as returned by `session.list_tools()`: `name`,
optional `description` (`tool.description or ""` in the code), and an
`inputSchema` attribute that may be absent (the code then uses `{}`). The
schema document itself is opaque to the loader. -/
structure ToolDescr where
  name : String
  description : Option String
  inputSchema : Option String
deriving Repr, DecidableEq

/-- Parameter schema stored on a wrapped tool: the descriptor's schema
document, or the empty dict `{}` when the descriptor has no `inputSchema`. -/
inductive Schema where
  | emptyDict
  | doc (s : String)
deriving Repr, DecidableEq

/-- The record data of one wrapped `MCPTool` (its `_session` reference is
the owning connection's session and is left implicit). -/
structure MCPToolRec where
  name : String
  description : String
  parameters : Schema
deriving Repr, DecidableEq

/-- The loop body of `connect` lines 135-145: wrap one descriptor. -/
def wrapTool (d : ToolDescr) : MCPToolRec :=
  { name := d.name
    description := d.description.getD ""
    parameters := match d.inputSchema with
      | some s => .doc s
      | none => .emptyDict }

/-- Mutable attribute state of one `MCPServerConnection`.  `exit_stack` and
`session` record whether the corresponding attribute is non-`None`
(the stack and session objects themselves are owned by the protocol
library and opaque here). -/
structure MCPServerConnection where
  name : String
  command : String
  args : List String
  env : List (String × String)
  exit_stack : Bool
  session : Bool
  tools : List MCPToolRec
deriving Repr, DecidableEq

/-- `MCPServerConnection.__init__` (lines 96-103); `env or {}` makes both
`None` and the empty mapping store the empty mapping. -/
def MCPServerConnection.init (name command : String) (args : List String)
    (env : Option (List (String × String))) : MCPServerConnection :=
  { name := name
    command := command
    args := args
    env := env.getD []
    exit_stack := false
    session := false
    tools := [] }

/-- The `env=` argument of `StdioServerParameters` (line 111):
`self.env if self.env else None`, so an empty mapping becomes `None`. -/
def paramsEnv (env : List (String × String)) : Option (List (String × String)) :=
  if env.isEmpty then none else some env

/-- Oracle for one run of `connect`: at which of the successive external
calls (constructing `StdioServerParameters`, entering the `stdio_client`
context, entering the `ClientSession` context, `initialize`,
`list_tools`) an exception is raised, or the descriptor list returned on
an exception-free run. -/
inductive ConnectScript where
  | failMkParams (msg : String)
  | failEnterStdio (msg : String)
  | failEnterSession (msg : String)
  | failInitialize (msg : String)
  | failListTools (msg : String)
  | succeed (tools : List ToolDescr)
deriving Repr, DecidableEq

/-- Whether a script makes `connect` hit its `except` handler. -/
def ConnectScript.isFailure : ConnectScript → Bool
  | .succeed _ => false
  | _ => true

/-- Whether `self.exit_stack` is non-`None` at the moment the script's
exception is raised (for `failMkParams` the new stack of line 115 has not
yet been assigned, so the attribute still holds its prior value). -/
def stackAtFailure (c : MCPServerConnection) : ConnectScript → Bool
  | .failMkParams _ => c.exit_stack
  | _ => true

/-- Observable outcome of one `connect` call: the boolean returned
(`none` when an exception propagates instead of a return), the exception
propagated out of `connect` (only the handler's own `aclose` can do
this), the connection's attribute state afterwards, the `env` passed to
`StdioServerParameters` (`none` while the parameters were never
constructed), and whether the handler's `self.exit_stack.aclose()` ran. -/
structure ConnectResult where
  returned : Option Bool
  raised : Option PyErr
  conn : MCPServerConnection
  serverParamsEnv : Option (Option (List (String × String)))
  acloseCalled : Bool
deriving Repr, DecidableEq

/-- `MCPServerConnection.connect` (lines 105-161), traced branch by branch.
`script` fixes at which external call (if any) the `try` body raises;
`cleanupAclose` is the oracle for the `except` handler's own
`await self.exit_stack.aclose()` (line 157), which the source does not
guard: when that await raises, the exception propagates out of `connect`
and `self.exit_stack = None` (line 158) is skipped, leaving the stack
assigned.  When it returns normally the handler clears the stack and
returns `False`; with no stack present at the handler the `aclose` is
skipped and the handler returns `False` directly.  On the success path
the descriptors are wrapped in order and appended to `self.tools` and the
handler (and its oracle) is never reached. -/
def MCPServerConnection.connect (c : MCPServerConnection) (script : ConnectScript)
    (cleanupAclose : Option PyErr) : ConnectResult :=
  match script with
  | .failMkParams _ =>
      if c.exit_stack then
        match cleanupAclose with
        | none =>
            { returned := some false
              raised := none
              conn := { c with exit_stack := false }
              serverParamsEnv := none
              acloseCalled := true }
        | some e =>
            { returned := none
              raised := some e
              conn := c
              serverParamsEnv := none
              acloseCalled := true }
      else
        { returned := some false
          raised := none
          conn := c
          serverParamsEnv := none
          acloseCalled := false }
  | .failEnterStdio _ =>
      match cleanupAclose with
      | none =>
          { returned := some false
            raised := none
            conn := { c with exit_stack := false }
            serverParamsEnv := some (paramsEnv c.env)
            acloseCalled := true }
      | some e =>
          { returned := none
            raised := some e
            conn := { c with exit_stack := true }
            serverParamsEnv := some (paramsEnv c.env)
            acloseCalled := true }
  | .failEnterSession _ =>
      match cleanupAclose with
      | none =>
          { returned := some false
            raised := none
            conn := { c with exit_stack := false }
            serverParamsEnv := some (paramsEnv c.env)
            acloseCalled := true }
      | some e =>
          { returned := none
            raised := some e
            conn := { c with exit_stack := true }
            serverParamsEnv := some (paramsEnv c.env)
            acloseCalled := true }
  | .failInitialize _ =>
      match cleanupAclose with
      | none =>
          { returned := some false
            raised := none
            conn := { c with exit_stack := false, session := true }
            serverParamsEnv := some (paramsEnv c.env)
            acloseCalled := true }
      | some e =>
          { returned := none
            raised := some e
            conn := { c with exit_stack := true, session := true }
            serverParamsEnv := some (paramsEnv c.env)
            acloseCalled := true }
  | .failListTools _ =>
      match cleanupAclose with
      | none =>
          { returned := some false
            raised := none
            conn := { c with exit_stack := false, session := true }
            serverParamsEnv := some (paramsEnv c.env)
            acloseCalled := true }
      | some e =>
          { returned := none
            raised := some e
            conn := { c with exit_stack := true, session := true }
            serverParamsEnv := some (paramsEnv c.env)
            acloseCalled := true }
  | .succeed descrs =>
      { returned := some true
        raised := none
        conn := { c with exit_stack := true, session := true
                         tools := c.tools ++ descrs.map wrapTool }
        serverParamsEnv := some (paramsEnv c.env)
        acloseCalled := false }

/-- Observable outcome of one `disconnect` call: the connection's attribute
state afterwards, whether `self.exit_stack.aclose()` was invoked, and the
exception (if any) propagated to the caller. -/
structure DisconnectResult where
  conn : MCPServerConnection
  acloseCalled : Bool
  raised : Option PyErr
deriving Repr, DecidableEq

/-- `MCPServerConnection.disconnect` (lines 163-187) as a function of the
outcome of `self.exit_stack.aclose()` (`none` = clean return).  When
`self.exit_stack` is `None` the whole body is skipped.  Otherwise
`CancelledError` is swallowed; a `RuntimeError` is swallowed exactly when
its message contains `"cancel scope"` or `"different task"`, and re-raised
otherwise; every other `Exception` is swallowed; the `finally` block
clears `exit_stack` and `session` in all of these cases. -/
def MCPServerConnection.disconnect (c : MCPServerConnection) (aclose : Option PyErr) :
    DisconnectResult :=
  if c.exit_stack then
    { conn := { c with exit_stack := false, session := false }
      acloseCalled := true
      raised :=
        match aclose with
        | none => none
        | some .cancelledError => none
        | some (.runtimeError msg) =>
            if !strContains msg "cancel scope" && !strContains msg "different task" then
              some (.runtimeError msg)
            else
              none
        | some (.otherError _) => none }
  else
    { conn := c, acloseCalled := false, raised := none }

/-- Env-value resolution for one entry (lines 248-259).  The ambient
process environment is a partial map `String → Option String`
(`os.getenv`).  A value that is empty, or starts with `"YOUR_"` or
`"your-"`, is looked up in the ambient environment; `if env_value:` means
an ambient value that is missing **or empty** leaves the original value in
place. -/
def resolveValue (ambient : String → Option String) (key value : String) : String :=
  if value = "" || strStartsWith value "YOUR_" || strStartsWith value "your-" then
    match ambient key with
    | some envValue => if envValue = "" then value else envValue
    | none => value
  else
    value

/-- The `resolved_env` mapping built by the loop over `env.items()`
(lines 247-259), with a dict modelled as its insertion-ordered pair list. -/
def resolveEnv (ambient : String → Option String) (env : List (String × String)) :
    List (String × String) :=
  env.map fun kv => (kv.1, resolveValue ambient kv.1 kv.2)

/-- One entry of the config's `mcpServers` mapping, with the `.get`
defaults of lines 233-239 already applied to `disabled`, `args` and `env`;
`command` stays optional because `server_config.get("command")` can yield
`None`. -/
structure ServerConfig where
  name : String
  disabled : Bool
  command : Option String
  args : List String
  env : List (String × String)
deriving Repr, DecidableEq

/-- Diagnostic events printed by the loader loop, one per handled entry. -/
inductive LoadEvent where
  | skippedDisabled (name : String)
  | noCommand (name : String)
  | attempted (name : String) (success : Bool)
deriving Repr, DecidableEq

/-- Observable outcome of the loader loop: the aggregate tool list it
returns, the connections appended to the process-wide `_mcp_connections`
registry, the diagnostics, and the exception escaping the loop (none can:
`connect` catches `Exception` and returns a boolean, and the rest of the
body is total). -/
structure LoadResult where
  tools : List MCPToolRec
  connections : List MCPServerConnection
  events : List LoadEvent
  raised : Option PyErr
deriving Repr, DecidableEq

/-- The per-server loop of `load_mcp_tools_async` (lines 232-266).  Each
input pair is one `mcpServers` entry together with its connection oracle:
`none` when that server's `connect()` returns `False`, `some descrs` when
it returns `True` having discovered `descrs`.  Disabled entries and
entries whose `command` is `None` or empty are logged and skipped; for the
rest a connection is constructed with the resolved env and `connect` is
awaited; only successful connections contribute their tools and join the
registry. -/
def loadLoop (ambient : String → Option String) :
    List (ServerConfig × Option (List ToolDescr)) → LoadResult
  | [] => { tools := [], connections := [], events := [], raised := none }
  | (cfg, outcome) :: rest =>
      if cfg.disabled then
        let r := loadLoop ambient rest
        { r with events := .skippedDisabled cfg.name :: r.events }
      else
        match cfg.command with
        | none =>
            let r := loadLoop ambient rest
            { r with events := .noCommand cfg.name :: r.events }
        | some cmd =>
            if cmd = "" then
              let r := loadLoop ambient rest
              { r with events := .noCommand cfg.name :: r.events }
            else
              match outcome with
              | none =>
                  let r := loadLoop ambient rest
                  { r with events := .attempted cfg.name false :: r.events }
              | some descrs =>
                  let conn0 := MCPServerConnection.init cfg.name cmd cfg.args
                    (some (resolveEnv ambient cfg.env))
                  let cres := conn0.connect (.succeed descrs) none
                  let r := loadLoop ambient rest
                  { tools := cres.conn.tools ++ r.tools
                    connections := cres.conn :: r.connections
                    events := .attempted cfg.name true :: r.events
                    raised := r.raised }

/-- The spec's words for `connectAll`'s result, written independently of
`loadLoop`: the tools of the successful connections, in attempt order —
for each enabled entry with a non-empty command whose connect succeeded,
its discovered tools wrapped in order. -/
def specSuccessfulTools : List (ServerConfig × Option (List ToolDescr)) → List MCPToolRec
  | [] => []
  | (cfg, outcome) :: rest =>
      if cfg.disabled then
        specSuccessfulTools rest
      else
        match cfg.command, outcome with
        | some cmd, some descrs =>
            if cmd = "" then
              specSuccessfulTools rest
            else
              descrs.map wrapTool ++ specSuccessfulTools rest
        | _, _ => specSuccessfulTools rest

/-- Observable outcome of `cleanup_mcp_connections`: the per-connection
disconnect outcomes in list order, the errors its `except` clause caught,
the registry after `_mcp_connections.clear()`, and the exception escaping
the function (none can: the clause catches `CancelledError` and
`Exception`, which covers every modelled error). -/
structure CleanupResult where
  attempts : List DisconnectResult
  suppressed : List PyErr
  registry : List MCPServerConnection
  raised : Option PyErr
deriving Repr, DecidableEq

/-- The `for connection in _mcp_connections` loop of
`cleanup_mcp_connections` (lines 286-292): each connection's `disconnect`
is awaited inside its own `try/except (asyncio.CancelledError, Exception)`,
so an error raised by one disconnect is caught and the loop moves to the
next connection.  Returns the disconnect outcomes in order and the caught
errors. -/
def cleanupLoop : List (MCPServerConnection × Option PyErr) →
    List DisconnectResult × List PyErr
  | [] => ([], [])
  | co :: rest =>
      let d := MCPServerConnection.disconnect co.1 co.2
      let caught : List PyErr :=
        match d.raised with
        | some e => [e]
        | none => []
      let r := cleanupLoop rest
      (d :: r.1, caught ++ r.2)

/-- `cleanup_mcp_connections` (lines 279-293) over the registry, each
connection paired with the oracle for its `aclose` outcome: run the
guarded loop, then `_mcp_connections.clear()`. -/
def cleanup_mcp_connections (conns : List (MCPServerConnection × Option PyErr)) :
    CleanupResult :=
  let r := cleanupLoop conns
  { attempts := r.1
    suppressed := r.2
    registry := []
    raised := none }

/-- C9: for every remote response, `MCPTool.execute` produces the result
content by joining the response's content fragments with newline, a
fragment with a `text` attribute contributing that text and every other
fragment its generic string rendering, regardless of the error flag. -/
theorem c9_execute_content_join (items : List ContentItem) (isError : Option Bool) :
    (MCPTool.execute (.respond items isError)).content
      = String.intercalate "\n" (items.map renderItem)
    ∧ (∀ s, renderItem (.text s) = s)
    ∧ (∀ r, renderItem (.other r) = r) :=
  ⟨rfl, fun _ => rfl, fun _ => rfl⟩

/-- C6, counterexample: when the session call raises an exception with
message `"boom"`, the result's error message is not the exception's
message `"boom"` — the code prefixes it with a fixed diagnostic. -/
theorem c6_counterexample :
    (MCPTool.execute (.raise "boom")).error ≠ some "boom"
    ∧ (MCPTool.execute (.raise "boom")).error
        = some "MCP tool execution failed: boom" := by
  constructor
  · decide
  · rfl

/-- C6, amended: if the remote response carries the explicit error flag,
the result has `success = false` and the fixed diagnostic
`"Tool returned error"`; if the session call raises, the exception is
converted to a result with `success = false` whose error message is the
fixed text `"MCP tool execution failed: "` followed by the exception's
message — `execute` never propagates an unhandled fault. -/
theorem c6_execute_error_conversion (items : List ContentItem) (msg : String) :
    ((MCPTool.execute (.respond items (some true))).success = false
      ∧ (MCPTool.execute (.respond items (some true))).error = some "Tool returned error")
    ∧ ((MCPTool.execute (.raise msg)).success = false
      ∧ (MCPTool.execute (.raise msg)).error
          = some ("MCP tool execution failed: " ++ msg)) :=
  ⟨⟨rfl, rfl⟩, ⟨rfl, rfl⟩⟩

/-- C2, counterexample: with a live exit stack, an `aclose` that raises a
`RuntimeError` whose message contains neither `"cancel scope"` nor
`"different task"` is re-raised by `disconnect` — not every release error
is suppressed. -/
theorem c2_counterexample :
    (MCPServerConnection.disconnect
        { name := "s", command := "c", args := [], env := [],
          exit_stack := true, session := true, tools := [] }
        (some (.runtimeError "boom"))).raised
      = some (.runtimeError "boom") := by
  decide

/-- C2, amended: `disconnect` is idempotent — with the exit stack absent it
is a no-op — and when the stack is present the `finally` block always
clears the stack and session; an error raised during release is suppressed
unless it is a `RuntimeError` whose message contains neither
`"cancel scope"` nor `"different task"`, which is re-raised. -/
theorem c2_disconnect_suppression (c : MCPServerConnection) (aclose : Option PyErr) :
    (c.exit_stack = false →
        c.disconnect aclose = { conn := c, acloseCalled := false, raised := none })
    ∧ (c.exit_stack = true →
        (c.disconnect aclose).conn.exit_stack = false
        ∧ (c.disconnect aclose).conn.session = false)
    ∧ ((c.disconnect aclose).raised = none ↔
        c.exit_stack = false
        ∨ aclose = none
        ∨ aclose = some .cancelledError
        ∨ (∃ m, aclose = some (.otherError m))
        ∨ (∃ m, aclose = some (.runtimeError m)
            ∧ (strContains m "cancel scope" = true
                ∨ strContains m "different task" = true))) := by
  refine ⟨fun h => by simp [MCPServerConnection.disconnect, h],
          fun h => by simp [MCPServerConnection.disconnect, h], ?_⟩
  cases hc : c.exit_stack with
  | false => simp [MCPServerConnection.disconnect, hc]
  | true =>
      cases aclose with
      | none => simp [MCPServerConnection.disconnect, hc]
      | some e =>
          cases e with
          | cancelledError => simp [MCPServerConnection.disconnect, hc]
          | otherError m => simp [MCPServerConnection.disconnect, hc]
          | runtimeError m =>
              by_cases h1 : strContains m "cancel scope" = true
              · simp [MCPServerConnection.disconnect, hc, h1]
              · by_cases h2 : strContains m "different task" = true
                · simp [MCPServerConnection.disconnect, hc, h1, h2]
                · simp [MCPServerConnection.disconnect, hc, h1, h2]

/-- C2, witness: applying the amended theorem at a live connection whose
release raises `CancelledError` shows the error is suppressed. -/
theorem c2_disconnect_suppression_witness :
    (MCPServerConnection.disconnect
        { name := "s", command := "c", args := [], env := [],
          exit_stack := true, session := true, tools := [] }
        (some .cancelledError)).raised = none := by
  have h := c2_disconnect_suppression
      { name := "s", command := "c", args := [], env := [],
        exit_stack := true, session := true, tools := [] }
      (some .cancelledError)
  exact h.2.2.mpr (Or.inr (Or.inr (Or.inl rfl)))

/-- C7: `cleanup_mcp_connections` invokes `disconnect` on every connection
in the registry in order, whatever each release does (each call is
independently guarded, so no outcome stops the loop or escapes the
function), clears the registry unconditionally, and a second call on the
now-empty list is a no-op that does not raise. -/
theorem c7_cleanup_idempotent (conns : List (MCPServerConnection × Option PyErr)) :
    (cleanup_mcp_connections conns).attempts
        = conns.map (fun co => MCPServerConnection.disconnect co.1 co.2)
    ∧ (cleanup_mcp_connections conns).raised = none
    ∧ (cleanup_mcp_connections conns).registry = []
    ∧ cleanup_mcp_connections []
        = { attempts := [], suppressed := [], registry := [], raised := none } := by
  refine ⟨?_, rfl, rfl, rfl⟩
  induction conns with
  | nil => rfl
  | cons co rest ih =>
      simpa [cleanup_mcp_connections, cleanupLoop] using ih

/-- C10: a connection constructed with an empty resolved env mapping
passes `None` (not an empty mapping) as the `env` of
`StdioServerParameters`; a non-empty resolved mapping is passed through
as the child's environment. -/
theorem c10_empty_env_becomes_none (name cmd : String) (args : List String)
    (resolved : List (String × String)) (descrs : List ToolDescr)
    (cleanupAclose : Option PyErr) :
    (resolved = [] →
      ((MCPServerConnection.init name cmd args (some resolved)).connect
          (.succeed descrs) cleanupAclose).serverParamsEnv = some none)
    ∧ (resolved ≠ [] →
      ((MCPServerConnection.init name cmd args (some resolved)).connect
          (.succeed descrs) cleanupAclose).serverParamsEnv = some (some resolved)) := by
  constructor
  · intro h
    subst h
    rfl
  · intro h
    simp [MCPServerConnection.connect, MCPServerConnection.init, paramsEnv, h]

/-- C10, witness: the theorem applied to the empty and a singleton
resolved mapping. -/
theorem c10_empty_env_becomes_none_witness :
    ((MCPServerConnection.init "s" "cmd" [] (some [])).connect
        (.succeed []) none).serverParamsEnv = some none
    ∧ ((MCPServerConnection.init "s" "cmd" [] (some [("K", "V")])).connect
        (.succeed []) none).serverParamsEnv = some (some [("K", "V")]) :=
  ⟨(c10_empty_env_becomes_none "s" "cmd" [] [] [] none).1 rfl,
   (c10_empty_env_becomes_none "s" "cmd" [] [("K", "V")] [] none).2 (by decide)⟩

/-- C4: for a configured env value that is empty or placeholder-shaped,
the ambient value is substituted when the ambient environment defines the
key (with a non-empty value, since `if env_value:` treats an empty
ambient value as undefined); otherwise the original literal passes
through unchanged; resolution never substitutes a blank (and, being a
total function, never raises). -/
theorem c4_placeholder_resolution (ambient : String → Option String) (key value : String)
    (hshape : value = ""
      ∨ strStartsWith value "YOUR_" = true
      ∨ strStartsWith value "your-" = true) :
    (∀ a, ambient key = some a → a ≠ "" → resolveValue ambient key value = a)
    ∧ (ambient key = none → resolveValue ambient key value = value)
    ∧ (ambient key = some "" → resolveValue ambient key value = value)
    ∧ (value ≠ "" → resolveValue ambient key value ≠ "") := by
  have hcond : (value = "" || strStartsWith value "YOUR_"
      || strStartsWith value "your-") = true := by
    rcases hshape with h | h | h <;> simp [h]
  refine ⟨?_, ?_, ?_, ?_⟩
  · intro a ha hne
    simp [resolveValue, hcond, ha, hne]
  · intro ha
    simp [resolveValue, hcond, ha]
  · intro ha
    simp [resolveValue, hcond, ha]
  · intro hv
    cases ha : ambient key with
    | none => simp [resolveValue, hcond, ha, hv]
    | some a =>
        by_cases hae : a = ""
        · simp [resolveValue, hcond, ha, hae, hv]
        · simp [resolveValue, hcond, ha, hae]

/-- C4, witness: a placeholder-shaped value resolved against an ambient
environment that defines the key. -/
theorem c4_placeholder_resolution_witness :
    strStartsWith "YOUR_API_KEY" "YOUR_" = true
    ∧ resolveValue (fun k => if k = "MYKEY" then some "secret" else none)
        "MYKEY" "YOUR_API_KEY" = "secret" := by
  have h := c4_placeholder_resolution
      (fun k => if k = "MYKEY" then some "secret" else none)
      "MYKEY" "YOUR_API_KEY" (Or.inr (Or.inl (by decide)))
  exact ⟨by decide, h.1 "secret" (by decide) (by decide)⟩

/-- C5: a configured env value that is non-empty and not
placeholder-shaped resolves to itself under every ambient environment;
two runs differing only in the ambient environment resolve it
identically — the ambient environment is never consulted. -/
theorem c5_literal_env_noninterference (key value : String)
    (h1 : value ≠ "")
    (h2 : strStartsWith value "YOUR_" = false)
    (h3 : strStartsWith value "your-" = false) :
    ∀ ambient ambient2 : String → Option String,
      resolveValue ambient key value = value
      ∧ resolveValue ambient2 key value = resolveValue ambient key value := by
  intro a1 a2
  constructor
  · simp [resolveValue, h1, h2, h3]
  · simp [resolveValue, h1, h2, h3]

/-- C5, witness: a literal value resolves to itself under two ambient
environments that disagree on the key. -/
theorem c5_literal_env_noninterference_witness :
    resolveValue (fun _ => some "ambient-val") "K" "literal" = "literal"
    ∧ resolveValue (fun _ => none) "K" "literal"
        = resolveValue (fun _ => some "ambient-val") "K" "literal" :=
  c5_literal_env_noninterference "K" "literal" (by decide) (by decide) (by decide)
    (fun _ => some "ambient-val") (fun _ => none)

/-- C3, counterexample: a handshake failure on a fresh connection whose
cleanup `aclose` itself raises makes `connect` propagate that exception
instead of returning `false`, and leaves `self.exit_stack` assigned
(line 158 is skipped) — so `connect` does not unconditionally return
`false` on failure. -/
theorem c3_counterexample :
    ((MCPServerConnection.init "s" "cmd" [] none).connect
        (.failInitialize "handshake rejected")
        (some (.otherError "teardown failed"))).returned = none
    ∧ ((MCPServerConnection.init "s" "cmd" [] none).connect
        (.failInitialize "handshake rejected")
        (some (.otherError "teardown failed"))).raised
        = some (.otherError "teardown failed")
    ∧ ((MCPServerConnection.init "s" "cmd" [] none).connect
        (.failInitialize "handshake rejected")
        (some (.otherError "teardown failed"))).conn.exit_stack = true :=
  ⟨rfl, rfl, rfl⟩

/-- C3, amended: whatever external call fails during `connect`, the
handler attempts the release of partially-acquired resources through the
same `exit_stack.aclose()` path normal teardown uses whenever a stack had
been acquired; when that release returns normally — and always when no
stack had been acquired — `connect` returns `false`, raises nothing and
leaves the stack cleared; when the release itself raises, the exception
propagates out of `connect` and the stack is left assigned. -/
theorem c3_connect_failure_release (c : MCPServerConnection) (script : ConnectScript)
    (cleanupAclose : Option PyErr) (h : script.isFailure = true) :
    (stackAtFailure c script = true →
        (c.connect script cleanupAclose).acloseCalled = true)
    ∧ (cleanupAclose = none →
        (c.connect script cleanupAclose).returned = some false
        ∧ (c.connect script cleanupAclose).raised = none
        ∧ (c.connect script cleanupAclose).conn.exit_stack = false)
    ∧ (stackAtFailure c script = false →
        (c.connect script cleanupAclose).returned = some false
        ∧ (c.connect script cleanupAclose).raised = none
        ∧ (c.connect script cleanupAclose).conn.exit_stack = false)
    ∧ (∀ e, stackAtFailure c script = true → cleanupAclose = some e →
        (c.connect script cleanupAclose).returned = none
        ∧ (c.connect script cleanupAclose).raised = some e
        ∧ (c.connect script cleanupAclose).conn.exit_stack = true) := by
  cases script with
  | succeed descrs => simp [ConnectScript.isFailure] at h
  | failMkParams m =>
      cases hc : c.exit_stack <;> cases cleanupAclose <;>
        simp_all [MCPServerConnection.connect, stackAtFailure]
  | failEnterStdio m =>
      cases cleanupAclose <;>
        simp_all [MCPServerConnection.connect, stackAtFailure]
  | failEnterSession m =>
      cases cleanupAclose <;>
        simp_all [MCPServerConnection.connect, stackAtFailure]
  | failInitialize m =>
      cases cleanupAclose <;>
        simp_all [MCPServerConnection.connect, stackAtFailure]
  | failListTools m =>
      cases cleanupAclose <;>
        simp_all [MCPServerConnection.connect, stackAtFailure]

/-- C3, witness: a handshake rejection whose cleanup release returns
normally makes `connect` return `false` with the stack released through
`aclose`. -/
theorem c3_connect_failure_release_witness :
    (ConnectScript.failInitialize "handshake rejected").isFailure = true
    ∧ ((MCPServerConnection.init "s" "cmd" [] none).connect
        (.failInitialize "handshake rejected") none).returned = some false
    ∧ ((MCPServerConnection.init "s" "cmd" [] none).connect
        (.failInitialize "handshake rejected") none).acloseCalled = true := by
  have h := c3_connect_failure_release
      (MCPServerConnection.init "s" "cmd" [] none)
      (.failInitialize "handshake rejected") none rfl
  exact ⟨rfl, (h.2.1 rfl).1, h.1 rfl⟩

/-- C8: an enabled server entry whose `command` is absent or empty is
rejected before any connection is made — the loader records the
`ConfigError` diagnostic (`"No command specified..."`) for that entry and
continues, the entry contributing no attempt, no tools and no
connection, with the remaining entries processed exactly as without it. -/
theorem c8_missing_command_rejected (ambient : String → Option String)
    (cfg : ServerConfig) (outcome : Option (List ToolDescr))
    (rest : List (ServerConfig × Option (List ToolDescr)))
    (hd : cfg.disabled = false)
    (hc : cfg.command = none ∨ cfg.command = some "") :
    loadLoop ambient ((cfg, outcome) :: rest)
      = { loadLoop ambient rest with
          events := .noCommand cfg.name :: (loadLoop ambient rest).events } := by
  rcases hc with h | h <;> simp [loadLoop, hd, h]

/-- C8, witness: a single enabled entry with no command yields no tools,
no connections and the `ConfigError` diagnostic. -/
theorem c8_missing_command_rejected_witness :
    loadLoop (fun _ => none)
        [({ name := "s1", disabled := false, command := none, args := [], env := [] }, none)]
      = { tools := [], connections := [], events := [.noCommand "s1"], raised := none } := by
  have h := c8_missing_command_rejected (fun _ => none)
      { name := "s1", disabled := false, command := none, args := [], env := [] }
      none [] rfl (Or.inl rfl)
  simpa using h

/-- Helper for C1: the loader loop returns exactly the spec-side
description of `connectAll`'s result — the wrapped tools of the enabled,
commanded entries whose connect succeeded, in attempt order — and no
exception escapes the loop, for every mix of connect outcomes. -/
theorem loadLoop_tools_eq_spec (ambient : String → Option String)
    (specs : List (ServerConfig × Option (List ToolDescr))) :
    (loadLoop ambient specs).tools = specSuccessfulTools specs
    ∧ (loadLoop ambient specs).raised = none := by
  induction specs with
  | nil => exact ⟨rfl, rfl⟩
  | cons p rest ih =>
      obtain ⟨cfg, outcome⟩ := p
      obtain ⟨ih1, ih2⟩ := ih
      cases hd : cfg.disabled with
      | true => simp [loadLoop, specSuccessfulTools, hd, ih1, ih2]
      | false =>
          cases hc : cfg.command with
          | none => simp [loadLoop, specSuccessfulTools, hd, hc, ih1, ih2]
          | some cmd =>
              by_cases he : cmd = ""
              · cases outcome <;>
                  simp [loadLoop, specSuccessfulTools, hd, hc, he, ih1, ih2]
              · cases outcome with
                | none => simp [loadLoop, specSuccessfulTools, hd, hc, he, ih1, ih2]
                | some descrs =>
                    simp [loadLoop, specSuccessfulTools, hd, hc, he, ih1, ih2,
                      MCPServerConnection.connect, MCPServerConnection.init]

/-- C1: when among the attempted specs one connect returns `false` and
another returns `true`, the loader yields exactly the tools of the
successful connections in attempt order, and no exception escapes — a
single server's connect failure never aborts the loading of the rest. -/
theorem c1_connect_failure_isolated (ambient : String → Option String)
    (specs : List (ServerConfig × Option (List ToolDescr)))
    (hfail : ∃ s ∈ specs, s.2 = none)
    (hsucc : ∃ s ∈ specs, (s.2).isSome = true) :
    (loadLoop ambient specs).tools = specSuccessfulTools specs
    ∧ (loadLoop ambient specs).raised = none :=
  loadLoop_tools_eq_spec ambient specs

/-- C1, witness: server `A` fails to connect, server `B` succeeds with
one tool; the loader returns exactly `B`'s tool. -/
theorem c1_connect_failure_isolated_witness :
    (loadLoop (fun _ => none)
        [({ name := "A", disabled := false, command := some "cmdA", args := [], env := [] }, none),
         ({ name := "B", disabled := false, command := some "cmdB", args := [], env := [] },
          some [{ name := "toolB", description := none, inputSchema := none }])]).tools
      = specSuccessfulTools
        [({ name := "A", disabled := false, command := some "cmdA", args := [], env := [] }, none),
         ({ name := "B", disabled := false, command := some "cmdB", args := [], env := [] },
          some [{ name := "toolB", description := none, inputSchema := none }])]
    ∧ specSuccessfulTools
        [({ name := "A", disabled := false, command := some "cmdA", args := [], env := [] }, none),
         ({ name := "B", disabled := false, command := some "cmdB", args := [], env := [] },
          some [{ name := "toolB", description := none, inputSchema := none }])]
      = [{ name := "toolB", description := "", parameters := .emptyDict }] := by
  have h := c1_connect_failure_isolated (fun _ => none)
      [({ name := "A", disabled := false, command := some "cmdA", args := [], env := [] }, none),
       ({ name := "B", disabled := false, command := some "cmdB", args := [], env := [] },
        some [{ name := "toolB", description := none, inputSchema := none }])]
      ⟨({ name := "A", disabled := false, command := some "cmdA", args := [], env := [] }, none),
        by simp, rfl⟩
      ⟨({ name := "B", disabled := false, command := some "cmdB", args := [], env := [] },
        some [{ name := "toolB", description := none, inputSchema := none }]),
        by simp, rfl⟩
  exact ⟨h.1, by decide⟩

end MCPLoader
